import Mathlib

/-!
Verification of the `separate_layers.py` publish plugin
(PhotoshopUploadVersionPlugin) against its specification.

The plugin is orchestration glue: an accept/validate/publish/finalize
lifecycle over a host document, a layer-decode library (`PSDImage`), the
filesystem, the logger and a publish-registration API.  We embed it
shallowly: every externally visible action (log line, file write, file
removal, registration call) becomes an element of an effect trace, the
item's mutable property mapping becomes an association list, Python
exceptions become an `Except PyError` result, and the external decode
library is a function parameter.
-/

namespace SeparateLayers

/-- Python exceptions distinguished by the plugin's control flow. -/
inductive PyError where
  /-- `KeyError` from a bracket lookup `item.properties[k]`. -/
  | keyError (k : String)
  /-- `TypeError`, e.g. `os.path.dirname(None)`. -/
  | typeError
  /-- `OSError` family from `os.remove`. -/
  | osError
  /-- `AttributeError`, e.g. `.fullName` on a non-document value. -/
  | attributeError
  /-- any exception raised by `PSDImage.open`. -/
  | psdError
  deriving DecidableEq, Repr

deriving instance DecidableEq for Except

/-- A host-application document handle.  `fsName` models the evaluation of
`document.fullName.fsName`: either it yields a path string or the host
raises some exception (modelled as `PyError`). -/
structure Document where
  name : String
  fsName : Except PyError String
  deriving DecidableEq, Repr

/-- One decoded layer of the document, as iterated from `PSDImage.open`.
Only its `name` matters to the plugin; `compose().save(...)` is recorded
as a file-write effect. -/
structure Layer where
  name : String
  deriving DecidableEq, Repr

/-- A Python value stored in the item's property mapping. -/
inductive PropValue where
  /-- Python `None`. -/
  | noneV
  | boolV (b : Bool)
  | strV (s : String)
  | docV (d : Document)
  deriving DecidableEq, Repr

/-- Python truthiness of a stored property value (document handles are
ordinary objects, hence truthy). -/
def truthy : PropValue → Bool
  | .noneV => false
  | .boolV b => b
  | .strV s => s ≠ ""
  | .docV _ => true

/-- Python `str()` of a property value, as used by `"%s" % (upload_path,)`. -/
def pyStr : PropValue → String
  | .noneV => "None"
  | .boolV b => if b then "True" else "False"
  | .strV s => s
  | .docV d => d.name

/-- The framework item: its mutable `properties` mapping. -/
structure Item where
  properties : List (String × PropValue)
  deriving DecidableEq, Repr

/-- `item.properties.get(k)`: `none` when the key is absent. -/
def propsGet (props : List (String × PropValue)) (k : String) : Option PropValue :=
  (props.find? (fun p => p.1 == k)).map Prod.snd

/-- `item.properties.get(k, d)`: default on absence. -/
def propsGetD (props : List (String × PropValue)) (k : String) (d : PropValue) : PropValue :=
  (propsGet props k).getD d

/-- `item.properties[k]`: bracket access, raising `KeyError` on absence. -/
def propsIndex (props : List (String × PropValue)) (k : String) : Except PyError PropValue :=
  match propsGet props k with
  | some v => .ok v
  | none => .error (.keyError k)

/-- `item.properties[k] = v`: in-place update (overwrite the existing
entry in place, else append). -/
def propsSet : List (String × PropValue) → String → PropValue → List (String × PropValue)
  | [], k, v => [(k, v)]
  | p :: ps, k, v => if p.1 == k then (k, v) :: ps else p :: propsSet ps k v

/-- Drop trailing `/` characters (as a char list). -/
def dropTrailingSlashes (cs : List Char) : List Char :=
  ((cs.reverse).dropWhile (fun c => c == '/')).reverse

/-- The suffix of `cs` after its last `/` (all of `cs` when it has none). -/
def afterLastSlash (cs : List Char) : List Char :=
  ((cs.reverse).takeWhile (fun c => c != '/')).reverse

/-- `os.path.dirname` with POSIX semantics: everything up to the last `/`,
with trailing slashes stripped unless the head is all slashes. -/
def dirname (p : String) : String :=
  let cs := p.toList
  let head := cs.take (cs.length - (afterLastSlash cs).length)
  if head ≠ [] ∧ head.any (fun c => c != '/') then
    String.mk (dropTrailingSlashes head)
  else
    String.mk head

/-- Whether a path is absolute (starts with `/`). -/
def isAbsPath (p : String) : Bool :=
  match p.toList with
  | '/' :: _ => true
  | _ => false

/-- Whether a path ends with `/`. -/
def endsWithSlash (a : String) : Bool :=
  match a.toList.reverse with
  | '/' :: _ => true
  | _ => false

/-- `os.path.join` for two components, POSIX semantics. -/
def joinPath (a b : String) : String :=
  if isAbsPath b then b
  else if a = "" ∨ endsWithSlash a then a ++ b
  else a ++ "/" ++ b

/-- Where a `save(rel)` call lands on disk: a relative path is resolved
against the process's current working directory. -/
def saveTarget (cwd rel : String) : String :=
  if isAbsPath rel then rel else joinPath cwd rel

/-- The `extra` dict attached to a log call. -/
inductive LogExtra where
  /-- no `extra` argument. -/
  | noExtra
  /-- `{"action_button": {"label": l, ...}}` (callback abstracted away). -/
  | actionButton (label : String)
  /-- `{"action_show_in_shotgun": {"label": l, ..., "entity": None}}`. -/
  | actionShowInShotgun (label : String)
  deriving DecidableEq, Repr

/-- One externally visible action of the plugin, in program order. -/
inductive Effect where
  | logWarn (msg : String) (extra : LogExtra)
  | logInfo (msg : String) (extra : LogExtra)
  /-- `layer.compose().save(rel)` landing at absolute path `path`. -/
  | fileWrite (path : String)
  /-- `sgtk.util.register_publish(..., path, name, version_number, published_file_type)`. -/
  | registerPublish (path : String) (name : String) (versionNumber : Option Nat)
      (publishedFileType : String)
  deriving DecidableEq, Repr

/-- `self.name` property of the plugin. -/
def pluginName : String := "Separate Layers"

/-- `self.settings` property: the plugin declares no settings. -/
def settingsSchema : List (String × PropValue) := []

/-- `self.item_filters` property. -/
def item_filters : List String := ["photoshop.document"]

/-- `_document_path(document)`: returns `document.fullName.fsName`, with any
exception swallowed into `None`. -/
def _document_path (document : Document) : Option String :=
  match document.fsName with
  | .ok p => some p
  | .error _ => none

/-- `_get_save_as_action(document)`: a log-action dict labelled
"Save As..." (the callback, which depends on the engine's configured apps,
is abstracted away; the label does not depend on it). -/
def _get_save_as_action (_document : Document) : LogExtra :=
  .actionButton "Save As..."

/-- The dictionary returned by `accept`. -/
structure AcceptResult where
  accepted : Bool
  /-- `some b` when the returned dict carries a `"checked"` key. -/
  checked : Option Bool
  deriving DecidableEq, Repr

/-- `accept(settings, item)`, parameterised over the path resolver that
stands for `_document_path` (so that independence from path resolution is
expressible).  Returns the result dict and the log trace; errors if the
stored `document` value is truthy but not a document handle (attribute
access on it would raise). -/
def acceptWith (resolve : Document → Option String)
    (_settings : List (String × PropValue)) (item : Item) :
    Except PyError (AcceptResult × List Effect) :=
  match propsGet item.properties "document" with
  | none =>
      .ok (⟨false, none⟩, [.logWarn "Could not determine the document for item" .noExtra])
  | some v =>
      if truthy v then
        match v with
        | .docV d =>
            let path := resolve d
            let warnEffs :=
              if path.isNone then
                [Effect.logWarn
                  ("The Photoshop document '" ++ d.name ++ "' has not been saved.")
                  (_get_save_as_action d)]
              else []
            .ok (⟨true, some true⟩,
              warnEffs ++
                [.logInfo
                  ("Photoshop '" ++ pluginName ++ "' plugin accepted document: " ++ d.name)
                  .noExtra])
        | _ => .error .attributeError
      else
        .ok (⟨false, none⟩, [.logWarn "Could not determine the document for item" .noExtra])

/-- `accept` with the real `_document_path` resolver. -/
def accept (settings : List (String × PropValue)) (item : Item) :
    Except PyError (AcceptResult × List Effect) :=
  acceptWith _document_path settings item

/-- `validate(settings, item)`: bracket-reads the document, resolves its
path, opens it through the decode library (`psdOpen`, the external
`PSDImage.open`), logs one info line per layer, returns `True`. -/
def validate (psdOpen : Option String → Except PyError (List Layer))
    (_settings : List (String × PropValue)) (item : Item) :
    Except PyError (Bool × List Effect) := do
  let v ← propsIndex item.properties "document"
  match v with
  | .docV d =>
      let path := _document_path d
      match psdOpen path with
      | .error e => .error e
      | .ok layers =>
          .ok (true,
            layers.map (fun layer =>
              .logInfo ("Validated " ++ layer.name ++ ".psd") .noExtra))
  | _ => .error .attributeError

/-- The trace of one iteration of `publish`'s per-layer loop:
`layer.compose().save(layer.name+'.tiff')` (a cwd-relative write), the
"Saved Layer" info line, then the `register_publish` call with the path
joined from the document's directory. -/
def publishLayerEffects (cwd docPath : String) (layer : Layer) : List Effect :=
  [.fileWrite (saveTarget cwd (layer.name ++ ".tiff")),
   .logInfo ("Saved Layer " ++ layer.name ++ ".psd") .noExtra,
   .registerPublish (joinPath (dirname docPath) (layer.name ++ ".tiff"))
     layer.name none "Rendered Image"]

/-- `publish(settings, item)`: re-resolves the document path, stores it on
`item.properties["upload_path"]`, re-opens the document, then runs the
per-layer loop.  Returns the (possibly mutated) item together with the
effect trace or the raised error; the item mutation survives a later
failure, as it does in Python.  When the resolved path is `None` yet the
decode library still yields layers, the first iteration's
`os.path.dirname(None)` raises `TypeError`. -/
def publish (psdOpen : Option String → Except PyError (List Layer)) (cwd : String)
    (_settings : List (String × PropValue)) (item : Item) :
    Item × Except PyError (List Effect) :=
  match propsIndex item.properties "document" with
  | .error e => (item, .error e)
  | .ok v =>
      match v with
      | .docV d =>
          let path := _document_path d
          let stored : PropValue := match path with
            | some p => .strV p
            | none => .noneV
          let item' : Item := ⟨propsSet item.properties "upload_path" stored⟩
          match psdOpen path with
          | .error e => (item', .error e)
          | .ok layers =>
              match path, layers with
              | _, [] => (item', .ok [])
              | some p, ls => (item', .ok (ls.flatMap (publishLayerEffects cwd p)))
              | none, _ :: _ => (item', .error .typeError)
      | _ => (item, .error .attributeError)

/-- The filesystem, as the set of existing file paths. -/
abbrev FS := List String

/-- `os.remove(v)`: succeeds only on a string path naming an existing
file; `None` (or any non-string) raises `TypeError`, a missing file raises
`OSError`. -/
def osRemove (fs : FS) (v : PropValue) : Except PyError FS :=
  match v with
  | .strV q =>
      if (List.contains fs q) then .ok (List.erase fs q) else .error .osError
  | _ => .error .typeError

/-- `finalize(settings, item)`: logs the completion line, bracket-reads
`upload_path` (raising `KeyError` when absent), and when `remove_upload`
is truthy best-effort-deletes that file, logging a warning on failure.
Returns the resulting filesystem and the log trace. -/
def finalize (fs : FS) (_settings : List (String × PropValue)) (item : Item) :
    Except PyError (FS × List Effect) := do
  let doneLog : Effect :=
    .logInfo "Version uploaded for Photoshop document" (.actionShowInShotgun "Show Version")
  let uploadPath ← propsIndex item.properties "upload_path"
  if truthy (propsGetD item.properties "remove_upload" (.boolV false)) then
    match osRemove fs uploadPath with
    | .ok fs' => .ok (fs', [doneLog])
    | .error _ =>
        .ok (fs, [doneLog,
          .logWarn ("Unable to remove temp file: " ++ pyStr uploadPath) .noExtra])
  else
    .ok (fs, [doneLog])

/-- `_get_version_entity(item)` resolves the best linkable entity (dead
code in this plugin): the context's entity, else its project, else none. -/
def _get_version_entity (contextEntity contextProject : Option String) : Option String :=
  match contextEntity with
  | some e => some e
  | none => contextProject

/-- The registration calls of a trace, in order, as
(path, name, version_number, published_file_type) tuples. -/
def regCalls (effs : List Effect) : List (String × String × Option Nat × String) :=
  effs.filterMap (fun e =>
    match e with
    | .registerPublish p n vn t => some (p, n, vn, t)
    | _ => none)

/-- The file-write targets of a trace, in order. -/
def fileWrites (effs : List Effect) : List String :=
  effs.filterMap (fun e =>
    match e with
    | .fileWrite p => some p
    | _ => none)

/-- The info-log lines of a trace. -/
def infoLogs (effs : List Effect) : List String :=
  effs.filterMap (fun e =>
    match e with
    | .logInfo m _ => some m
    | _ => none)

/-! ## General lemmas about the embedding -/

theorem propsGet_propsSet (props : List (String × PropValue)) (k : String) (v : PropValue) :
    propsGet (propsSet props k v) k = some v := by
  induction props with
  | nil => simp [propsSet, propsGet]
  | cons p ps ih =>
      by_cases hp : p.1 == k
      · simp [propsSet, hp, propsGet]
      · simpa [propsSet, hp, propsGet] using ih

theorem regCalls_append (a b : List Effect) :
    regCalls (a ++ b) = regCalls a ++ regCalls b := by
  simp [regCalls]

theorem regCalls_flatMap (cwd p : String) (ls : List Layer) :
    regCalls (ls.flatMap (publishLayerEffects cwd p)) =
      ls.map (fun l =>
        (joinPath (dirname p) (l.name ++ ".tiff"), l.name, (none : Option Nat),
          "Rendered Image")) := by
  induction ls with
  | nil => rfl
  | cons l ls ih =>
      simp only [List.flatMap_cons, List.map_cons, regCalls_append, ih]
      rfl

/-! ## Claim theorems -/

/-- **C4.** `_document_path` swallows any exception raised while reading
`document.fullName.fsName`, returning `None`; on success it returns the
resolved path. -/
theorem document_path_swallows_exceptions (d : Document) :
    (∀ e : PyError, d.fsName = .error e → _document_path d = none) ∧
    (∀ p : String, d.fsName = .ok p → _document_path d = some p) := by
  constructor
  · intro e he
    simp [_document_path, he]
  · intro p hp
    simp [_document_path, hp]

/-- Witness for C4 at concrete documents: a raising resolution yields
`none`, a successful one yields the path. -/
theorem document_path_swallows_exceptions_witness :
    _document_path ⟨"art.psd", .error .attributeError⟩ = none ∧
    _document_path ⟨"art.psd", .ok "/project/art.psd"⟩ = some "/project/art.psd" :=
  ⟨(document_path_swallows_exceptions ⟨"art.psd", .error .attributeError⟩).1
      .attributeError rfl,
   (document_path_swallows_exceptions ⟨"art.psd", .ok "/project/art.psd"⟩).2
      "/project/art.psd" rfl⟩

/-- **C3.** When the item's `document` property is absent or falsy,
`accept` returns `{accepted: False}` (no `checked` key), logs exactly the
one warning, and never consults the path resolver: the result is the same
for every resolver in place of `_document_path`. -/
theorem accept_without_document_rejects
    (resolve : Document → Option String) (settings : List (String × PropValue))
    (item : Item)
    (hdoc : ∀ v, propsGet item.properties "document" = some v → truthy v = false) :
    acceptWith resolve settings item =
      .ok (⟨false, none⟩,
        [.logWarn "Could not determine the document for item" .noExtra]) := by
  unfold acceptWith
  cases h : propsGet item.properties "document" with
  | none => rfl
  | some v =>
      have hv := hdoc v h
      simp [hv]

/-- Witness for C3: an item with empty properties, under the real
resolver `_document_path`. -/
theorem accept_without_document_rejects_witness :
    acceptWith _document_path [] ⟨[]⟩ =
      .ok (⟨false, none⟩,
        [.logWarn "Could not determine the document for item" .noExtra]) :=
  accept_without_document_rejects _document_path [] ⟨[]⟩
    (by intro v hv; simp [propsGet] at hv)

/-- **C8.** When the item carries a document whose path resolution raises
(document never saved), `accept` logs the "has not been saved" warning
carrying the "Save As..." action descriptor and still returns
`{accepted: True, checked: True}`. -/
theorem accept_unsaved_document_advisory
    (settings : List (String × PropValue)) (item : Item) (d : Document) (e : PyError)
    (hdoc : propsGet item.properties "document" = some (.docV d))
    (hpath : d.fsName = .error e) :
    accept settings item =
      .ok (⟨true, some true⟩,
        [.logWarn ("The Photoshop document '" ++ d.name ++ "' has not been saved.")
           (.actionButton "Save As..."),
         .logInfo ("Photoshop '" ++ pluginName ++ "' plugin accepted document: " ++ d.name)
           .noExtra]) := by
  unfold accept acceptWith
  simp [hdoc, truthy, _document_path, hpath, _get_save_as_action]

/-- Witness for C8: a concrete item holding an unsaved document. -/
theorem accept_unsaved_document_advisory_witness :
    accept [] ⟨[("document", .docV ⟨"art.psd", .error .attributeError⟩)]⟩ =
      .ok (⟨true, some true⟩,
        [.logWarn "The Photoshop document 'art.psd' has not been saved."
           (.actionButton "Save As..."),
         .logInfo ("Photoshop '" ++ pluginName ++ "' plugin accepted document: art.psd")
           .noExtra]) :=
  accept_unsaved_document_advisory [] ⟨[("document", .docV ⟨"art.psd", .error .attributeError⟩)]⟩
    ⟨"art.psd", .error .attributeError⟩ .attributeError (by simp [propsGet]) rfl

/-- **C5.** When the item carries a document that the decode library opens
successfully, `validate` returns `True` with exactly one informational
line per decoded layer; with zero layers it returns `True` and logs zero
per-layer lines. -/
theorem validate_true_one_line_per_layer
    (psdOpen : Option String → Except PyError (List Layer))
    (settings : List (String × PropValue)) (item : Item) (d : Document)
    (layers : List Layer)
    (hdoc : propsGet item.properties "document" = some (.docV d))
    (hopen : psdOpen (_document_path d) = .ok layers) :
    validate psdOpen settings item =
      .ok (true,
        layers.map (fun layer =>
          .logInfo ("Validated " ++ layer.name ++ ".psd") .noExtra)) ∧
    (layers.map (fun layer =>
        Effect.logInfo ("Validated " ++ layer.name ++ ".psd") .noExtra)).length =
      layers.length := by
  constructor
  · unfold validate
    simp [propsIndex, hdoc, hopen, Bind.bind, Except.bind]
  · simp

/-- Witness for C5 at the zero-layer edge case: `validate` returns `True`
with an empty per-layer trace. -/
theorem validate_true_one_line_per_layer_witness :
    validate (fun _ => .ok []) [] ⟨[("document", .docV ⟨"art.psd", .ok "/project/art.psd"⟩)]⟩ =
      .ok (true, ([] : List Layer).map (fun layer =>
        .logInfo ("Validated " ++ layer.name ++ ".psd") .noExtra)) ∧
    (([] : List Layer).map (fun layer =>
        Effect.logInfo ("Validated " ++ layer.name ++ ".psd") .noExtra)).length =
      ([] : List Layer).length :=
  validate_true_one_line_per_layer (fun _ => .ok []) []
    ⟨[("document", .docV ⟨"art.psd", .ok "/project/art.psd"⟩)]⟩
    ⟨"art.psd", .ok "/project/art.psd"⟩ [] (by simp [propsGet]) rfl

/-- **C9.** `publish` stores the re-resolved document path on
`item.properties["upload_path"]` before the decode-library open: the
returned item carries it for every behaviour of the decode library, and
when resolution succeeds it equals the resolved path. -/
theorem publish_stores_upload_path
    (psdOpen : Option String → Except PyError (List Layer)) (cwd : String)
    (settings : List (String × PropValue)) (item : Item) (d : Document) (p : String)
    (hdoc : propsGet item.properties "document" = some (.docV d))
    (hpath : d.fsName = .ok p) :
    propsGet (publish psdOpen cwd settings item).1.properties "upload_path" =
      some (.strV p) := by
  unfold publish
  simp only [propsIndex, hdoc, _document_path, hpath]
  cases hopen : psdOpen (some p) with
  | error e => simpa using propsGet_propsSet item.properties "upload_path" (.strV p)
  | ok layers =>
      cases layers with
      | nil => simpa using propsGet_propsSet item.properties "upload_path" (.strV p)
      | cons l ls => simpa using propsGet_propsSet item.properties "upload_path" (.strV p)

/-- Witness for C9: a concrete item whose document resolves, under a
decode library that fails to open — the path is stored regardless. -/
theorem publish_stores_upload_path_witness :
    propsGet (publish (fun _ => .error .psdError) "/tmp" []
        ⟨[("document", .docV ⟨"art.psd", .ok "/project/art.psd"⟩)]⟩).1.properties
      "upload_path" = some (.strV "/project/art.psd") :=
  publish_stores_upload_path (fun _ => .error .psdError) "/tmp" []
    ⟨[("document", .docV ⟨"art.psd", .ok "/project/art.psd"⟩)]⟩
    ⟨"art.psd", .ok "/project/art.psd"⟩ "/project/art.psd" (by simp [propsGet]) rfl

/-- **C2.** On a resolvable document that the decode library opens to
`layers`, `publish` succeeds and its trace contains exactly one
registration call per layer, in layer order, with path
`join(dirname(path), layerName + ".tiff")`, the layer's name,
`version_number = None` and `published_file_type = "Rendered Image"`. -/
theorem publish_registers_once_per_layer
    (psdOpen : Option String → Except PyError (List Layer)) (cwd : String)
    (settings : List (String × PropValue)) (item : Item) (d : Document) (p : String)
    (layers : List Layer)
    (hdoc : propsGet item.properties "document" = some (.docV d))
    (hpath : d.fsName = .ok p)
    (hopen : psdOpen (some p) = .ok layers) :
    (publish psdOpen cwd settings item).2 =
      .ok (layers.flatMap (publishLayerEffects cwd p)) ∧
    regCalls (layers.flatMap (publishLayerEffects cwd p)) =
      layers.map (fun l =>
        (joinPath (dirname p) (l.name ++ ".tiff"), l.name, (none : Option Nat),
          "Rendered Image")) ∧
    (regCalls (layers.flatMap (publishLayerEffects cwd p))).length = layers.length := by
  refine ⟨?_, regCalls_flatMap cwd p layers, ?_⟩
  · unfold publish
    simp only [propsIndex, hdoc, _document_path, hpath, hopen]
    cases layers with
    | nil => rfl
    | cons l ls => rfl
  · rw [regCalls_flatMap]
    simp

/-- Witness for C2: the spec's three-layer example `bg`, `fg`, `text`
yields exactly three registration calls with the documented arguments. -/
theorem publish_registers_once_per_layer_witness :
    (publish
        (fun q => if q = some "/project/art.psd"
          then .ok [⟨"bg"⟩, ⟨"fg"⟩, ⟨"text"⟩] else .error .psdError)
        "/tmp" [] ⟨[("document", .docV ⟨"art.psd", .ok "/project/art.psd"⟩)]⟩).2 =
      .ok ([Layer.mk "bg", ⟨"fg"⟩, ⟨"text"⟩].flatMap
        (publishLayerEffects "/tmp" "/project/art.psd")) ∧
    regCalls ([Layer.mk "bg", ⟨"fg"⟩, ⟨"text"⟩].flatMap
        (publishLayerEffects "/tmp" "/project/art.psd")) =
      [Layer.mk "bg", ⟨"fg"⟩, ⟨"text"⟩].map (fun l =>
        (joinPath (dirname "/project/art.psd") (l.name ++ ".tiff"), l.name,
          (none : Option Nat), "Rendered Image")) ∧
    (regCalls ([Layer.mk "bg", ⟨"fg"⟩, ⟨"text"⟩].flatMap
        (publishLayerEffects "/tmp" "/project/art.psd"))).length =
      [Layer.mk "bg", ⟨"fg"⟩, ⟨"text"⟩].length :=
  publish_registers_once_per_layer
    (fun q => if q = some "/project/art.psd"
      then .ok [⟨"bg"⟩, ⟨"fg"⟩, ⟨"text"⟩] else .error .psdError)
    "/tmp" [] ⟨[("document", .docV ⟨"art.psd", .ok "/project/art.psd"⟩)]⟩
    ⟨"art.psd", .ok "/project/art.psd"⟩ "/project/art.psd" [⟨"bg"⟩, ⟨"fg"⟩, ⟨"text"⟩]
    (by simp [propsGet]) rfl (by simp)

/-- **C1.** (refuting evaluation) The claim says each layer's composed
image is written to `<layerName>.tiff` **beside the source document**; the
code instead passes the bare relative name `layer.name + '.tiff'` to
`save`, so the file lands in the process's current working directory,
while the registration call names the beside-the-document path.  For a
document at `/project/art.psd` with one layer `bg` and cwd `/tmp`, the
write goes to `/tmp/bg.tiff`, not to the registered `/project/bg.tiff`. -/
theorem publish_writes_into_cwd_not_beside_document :
    (publish
        (fun q => if q = some "/project/art.psd" then .ok [⟨"bg"⟩] else .error .psdError)
        "/tmp" [] ⟨[("document", .docV ⟨"art.psd", .ok "/project/art.psd"⟩)]⟩).2 =
      .ok [.fileWrite "/tmp/bg.tiff",
           .logInfo "Saved Layer bg.psd" .noExtra,
           .registerPublish "/project/bg.tiff" "bg" none "Rendered Image"] ∧
    joinPath (dirname "/project/art.psd") ("bg" ++ ".tiff") = "/project/bg.tiff" ∧
    ("/tmp/bg.tiff" : String) ≠ "/project/bg.tiff" := by
  refine ⟨by decide, by decide, by decide⟩

/-- **C6.** With `remove_upload` truthy, `finalize` attempts the deletion
of `upload_path`: when `os.remove` succeeds the file is gone, and when it
raises the exception is caught, a warning is logged, and `finalize`
returns normally. -/
theorem finalize_remove_upload_best_effort
    (fs : FS) (settings : List (String × PropValue)) (item : Item) (up : PropValue)
    (hup : propsGet item.properties "upload_path" = some up)
    (hrm : truthy (propsGetD item.properties "remove_upload" (.boolV false)) = true) :
    (∀ fs' : FS, osRemove fs up = .ok fs' →
      finalize fs settings item =
        .ok (fs', [.logInfo "Version uploaded for Photoshop document"
          (.actionShowInShotgun "Show Version")])) ∧
    (∀ e : PyError, osRemove fs up = .error e →
      finalize fs settings item =
        .ok (fs,
          [.logInfo "Version uploaded for Photoshop document"
            (.actionShowInShotgun "Show Version"),
           .logWarn ("Unable to remove temp file: " ++ pyStr up) .noExtra])) := by
  constructor
  · intro fs' hok
    unfold finalize
    simp [propsIndex, hup, hrm, hok, Bind.bind, Except.bind]
  · intro e herr
    unfold finalize
    simp [propsIndex, hup, hrm, herr, Bind.bind, Except.bind]

/-- Witness for C6: `remove_upload = True` with a missing file at
`upload_path` (empty filesystem) logs the warning and does not raise. -/
theorem finalize_remove_upload_best_effort_witness :
    osRemove ([] : FS) (.strV "/tmp/u.tiff") = .error .osError ∧
    finalize ([] : FS) []
        ⟨[("upload_path", .strV "/tmp/u.tiff"), ("remove_upload", .boolV true)]⟩ =
      .ok (([] : FS),
        [.logInfo "Version uploaded for Photoshop document"
          (.actionShowInShotgun "Show Version"),
         .logWarn ("Unable to remove temp file: " ++ pyStr (.strV "/tmp/u.tiff"))
           .noExtra]) :=
  ⟨by decide,
   (finalize_remove_upload_best_effort ([] : FS) []
      ⟨[("upload_path", .strV "/tmp/u.tiff"), ("remove_upload", .boolV true)]⟩
      (.strV "/tmp/u.tiff") (by simp [propsGet]) (by decide)).2 .osError (by decide)⟩

/-- **C7.** With `remove_upload` unset or falsy, `finalize` deletes
nothing: the filesystem it returns is the one it was given. -/
theorem finalize_without_remove_upload_keeps_files
    (fs : FS) (settings : List (String × PropValue)) (item : Item) (up : PropValue)
    (hup : propsGet item.properties "upload_path" = some up)
    (hrm : truthy (propsGetD item.properties "remove_upload" (.boolV false)) = false) :
    finalize fs settings item =
      .ok (fs, [.logInfo "Version uploaded for Photoshop document"
        (.actionShowInShotgun "Show Version")]) := by
  unfold finalize
  simp [propsIndex, hup, hrm, Bind.bind, Except.bind]

/-- Witness for C7: the file at `upload_path` is still on the returned
filesystem when `remove_upload` is unset. -/
theorem finalize_without_remove_upload_keeps_files_witness :
    finalize ["/tmp/u.tiff"] [] ⟨[("upload_path", .strV "/tmp/u.tiff")]⟩ =
      .ok (["/tmp/u.tiff"], [.logInfo "Version uploaded for Photoshop document"
        (.actionShowInShotgun "Show Version")]) :=
  finalize_without_remove_upload_keeps_files ["/tmp/u.tiff"] []
    ⟨[("upload_path", .strV "/tmp/u.tiff")]⟩ (.strV "/tmp/u.tiff")
    (by simp [propsGet]) (by decide)

/-- **C10.** `finalize` bracket-reads `upload_path` before and regardless
of the `remove_upload` check, so on an item lacking that property it
raises `KeyError`, even when `remove_upload` is unset or `False`. -/
theorem finalize_without_upload_path_raises
    (fs : FS) (settings : List (String × PropValue)) (item : Item)
    (hmiss : propsGet item.properties "upload_path" = none) :
    finalize fs settings item = .error (.keyError "upload_path") := by
  unfold finalize
  simp [propsIndex, hmiss, Bind.bind, Except.bind]

/-- Witness for C10: an item with `remove_upload = False` and no
`upload_path` (as after skipping `publish`) makes `finalize` raise. -/
theorem finalize_without_upload_path_raises_witness :
    finalize ([] : FS) [] ⟨[("remove_upload", .boolV false)]⟩ =
      .error (.keyError "upload_path") :=
  finalize_without_upload_path_raises ([] : FS) [] ⟨[("remove_upload", .boolV false)]⟩
    (by simp [propsGet])

end SeparateLayers
